import Mathlib

/-!
Verification of the Database-manager (dbmplus) orchestration layer.

Shallow embedding of the parts of the source the claims concern:

* `app/utils/data_utils.py`   — `flip_data`, `calculate_loss_points`,
  `check_csv_alignment` (transforms over tabular data).
* `app/controllers/data_processor.py` — `DataProcessor.generate_basemap`,
  `move_files`, `batch_move_files`, the retry queue
  (`_add_to_retry_queue` / `_process_retry_queue` / `_retry_component_move`)
  and `DelayedMoveManager` (`start_scheduler` / `process_delayed_moves`).
* `app/models/database_manager.py` — `DatabaseManager.get_component`,
  `_load_cache` / `_save_cache`.
* `app/models/data_models.py` — `ComponentInfo` and its `to_dict`.
* `app/controllers/storage_manager.py` — `StorageMoveManager.safe_move_file`.

Tables (pandas DataFrames) are lists of rows; the filesystem and the
outcomes of I/O calls are passed in explicitly as oracle records, so every
branch of the Python control flow is represented by a branch on the oracle.
-/

namespace DBM

/-! ## Transforms (`data_utils.py`)

`calculate_loss_points` takes two binarized tables (output of
`convert_to_binary`, columns `Col`, `Row`, `binary`).  A row of such a
table: -/

/-- One row of a binarized table: columns `Col`, `Row`, `binary`. -/
structure BinRow where
  col : Int
  row : Int
  binary : Int
deriving DecidableEq, Repr

/-- One row of the pandas inner merge of two binarized tables on
`(Col, Row)` (`pd.merge(prev_df, curr_df, on=['Col','Row'],
suffixes=('_prev','_curr'))`, data_utils.py line 125): the key columns plus
`binary_prev` and `binary_curr`. -/
structure MergedRow where
  col : Int
  row : Int
  bprev : Int
  bcurr : Int
deriving DecidableEq, Repr

/-- The values the `status` column can name.  The source uses the string
literals `'good_to_good'` / `'good_to_bad'` / `'bad_to_bad'`
(data_utils.py lines 132/136/140), initializes the merged table with
`'unknown'` (line 128, never part of the result) and has no
`'bad_to_good'` literal at all; the strings are modeled as constructors. -/
inductive LossStatus
  | good_to_good
  | good_to_bad
  | bad_to_bad
  | bad_to_good
  | unknown
deriving DecidableEq, Repr

/-- One row of the result of `calculate_loss_points`: columns `Col`, `Row`,
`status`. -/
structure LossRow where
  col : Int
  row : Int
  status : LossStatus
deriving DecidableEq, Repr

/-- The pandas inner merge on `(Col, Row)`: every pair of a `prev` row and a
`curr` row with equal key yields one merged row (left order outer,
right order inner, as pandas produces for an inner join). -/
def innerMergeBin (prev curr : List BinRow) : List MergedRow :=
  prev.flatMap fun p =>
    (curr.filter fun c => c.col == p.col && c.row == p.row).map fun c =>
      { col := p.col, row := p.row, bprev := p.binary, bcurr := c.binary }

/-- `calculate_loss_points` (data_utils.py lines 104-146): merge the two
tables on `(Col, Row)`, filter the three classes
`(binary_prev, binary_curr) = (1,1) / (1,0) / (0,0)`, label each class with
its status string and concatenate.  Merged rows in none of the three
classes (in particular the bad-to-good pair `(0,1)`) appear in no subset
and hence not in the result. -/
def calculateLossPoints (prev curr : List BinRow) : List LossRow :=
  let merged := innerMergeBin prev curr
  let good_to_good := (merged.filter fun m => m.bprev == 1 && m.bcurr == 1).map
    fun m => { col := m.col, row := m.row, status := LossStatus.good_to_good }
  let good_to_bad := (merged.filter fun m => m.bprev == 1 && m.bcurr == 0).map
    fun m => { col := m.col, row := m.row, status := LossStatus.good_to_bad }
  let bad_to_bad := (merged.filter fun m => m.bprev == 0 && m.bcurr == 0).map
    fun m => { col := m.col, row := m.row, status := LossStatus.bad_to_bad }
  good_to_good ++ good_to_bad ++ bad_to_bad

/-- One data row as `flip_data` sees it: the `Col` and `Row` columns (the
function touches nothing else). -/
structure CRRow where
  col : Int
  row : Int
deriving DecidableEq, Repr

/-- The two axis arguments `flip_data` accepts (any other string leaves the
table unchanged with a warning). -/
inductive FlipAxis
  | horizontal
  | vertical
deriving DecidableEq, Repr

/-- `Series.max` over a nonempty list of integers (pandas`.max()`;
the `[]` case is never used: pandas would give `NaN` there and every
theorem below assumes a nonempty table). -/
def listMaxInt : List Int → Int
  | [] => 0
  | x :: xs => xs.foldl max x

/-- `Series.min` over a nonempty list of integers (used only to state what
the double flip computes). -/
def listMinInt : List Int → Int
  | [] => 0
  | x :: xs => xs.foldl min x

/-- `flip_data` (data_utils.py lines 43-63): replace the chosen axis column
by (its maximum − the value); the other column is untouched and the row
order is preserved. -/
def flipData (df : List CRRow) (axis : FlipAxis) : List CRRow :=
  match axis with
  | .horizontal =>
      let m := listMaxInt (df.map (·.col))
      df.map fun r => { col := m - r.col, row := r.row }
  | .vertical =>
      let m := listMaxInt (df.map (·.row))
      df.map fun r => { col := r.col, row := m - r.row }

/-! ## Component records and the cache round trip
(`data_models.py`, `database_manager.py`) -/

/-- `ComponentInfo` (data_models.py lines 97-114).  Timestamps are opaque
instants (`Nat`); `defect_stats` is an association list. -/
structure ComponentInfo where
  component_id : String
  lot_id : String
  station : String
  original_filename : Option String := none
  processed_filename : Option String := none
  org_path : Option String := none
  roi_path : Option String := none
  csv_path : Option String := none
  original_csv_path : Option String := none
  basemap_path : Option String := none
  lossmap_path : Option String := none
  fpy_path : Option String := none
  defect_stats : List (String × Int) := []
  created_at : Nat := 0
  modified_at : Nat := 0
  /-- Not a dataclass field: `move_files` (data_processor.py line 2143)
  attaches `product_id` to the instance dynamically; until that assignment
  the attribute does not exist, modeled as `none`.  `to_dict` does not
  serialize it. -/
  product_id : Option String := none
deriving DecidableEq, Repr

/-- The dictionary `ComponentInfo.to_dict` produces (data_models.py lines
128-146): one entry per field, `roi_path` included. -/
structure ComponentDict where
  component_id : String
  lot_id : String
  station : String
  original_filename : Option String
  processed_filename : Option String
  org_path : Option String
  roi_path : Option String
  csv_path : Option String
  original_csv_path : Option String
  basemap_path : Option String
  lossmap_path : Option String
  fpy_path : Option String
  defect_stats : List (String × Int)
  created_at : Nat
  modified_at : Nat
deriving DecidableEq, Repr

/-- `ComponentInfo.to_dict` (data_models.py lines 128-146): serializes
every field, `roi_path` among them. -/
def ComponentInfo.toDict (c : ComponentInfo) : ComponentDict :=
  { component_id := c.component_id
    lot_id := c.lot_id
    station := c.station
    original_filename := c.original_filename
    processed_filename := c.processed_filename
    org_path := c.org_path
    roi_path := c.roi_path
    csv_path := c.csv_path
    original_csv_path := c.original_csv_path
    basemap_path := c.basemap_path
    lossmap_path := c.lossmap_path
    fpy_path := c.fpy_path
    defect_stats := c.defect_stats
    created_at := c.created_at
    modified_at := c.modified_at }

/-- The `ComponentInfo(...)` constructor call inside
`DatabaseManager._load_cache` (database_manager.py lines 97-112): it passes
`original_filename`, `processed_filename`, `org_path`, `csv_path`,
`original_csv_path`, `basemap_path`, `lossmap_path`, `fpy_path`,
`defect_stats` and the timestamps — but not `roi_path`, which therefore
takes the dataclass default `None`. -/
def loadComponentFromDict (d : ComponentDict) : ComponentInfo :=
  { component_id := d.component_id
    lot_id := d.lot_id
    station := d.station
    original_filename := d.original_filename
    processed_filename := d.processed_filename
    org_path := d.org_path
    roi_path := none
    csv_path := d.csv_path
    original_csv_path := d.original_csv_path
    basemap_path := d.basemap_path
    lossmap_path := d.lossmap_path
    fpy_path := d.fpy_path
    defect_stats := d.defect_stats
    created_at := d.created_at
    modified_at := d.modified_at }

/-! ## Path templates (`config.get_path("database.structure.…")`)

Paths are rendered relative to `database.base_path`; the first path segment
is the product, so "lies in product P's subtree" is "the first `/`-separated
segment is P". -/

/-- `{base}/{product}/csv/{lot}/{station}/{component}.csv` (processed CSV). -/
def csvFilePath (product lot station component : String) : String :=
  product ++ "/csv/" ++ lot ++ "/" ++ station ++ "/" ++ component ++ ".csv"

/-- `{base}/{product}/map/{lot}/{station}/{component}.png` (basemap). -/
def basemapFilePath (product lot station component : String) : String :=
  product ++ "/map/" ++ lot ++ "/" ++ station ++ "/" ++ component ++ ".png"

/-- `{base}/{product}/map/{lot}/LOSS{idx}/{component}.png` (lossmap), `idx`
the 0-based position of the station in `station_order`. -/
def lossmapFilePath (product lot : String) (idx : Nat) (component : String) : String :=
  product ++ "/map/" ++ lot ++ "/LOSS" ++ toString idx ++ "/" ++ component ++ ".png"

/-- `{base}/{product}/map/{lot}/FPY/{component}.png` (FPY map). -/
def fpyFilePath (product lot component : String) : String :=
  product ++ "/map/" ++ lot ++ "/FPY/" ++ component ++ ".png"

/-- `{base}/{product}/org/{lot}/{station}/{component}/` (org frame dir). -/
def orgDirPath (product lot station component : String) : String :=
  product ++ "/org/" ++ lot ++ "/" ++ station ++ "/" ++ component

/-- `{base}/{product}/roi/{lot}/{station}/{component}/` (ROI crop dir). -/
def roiDirPath (product lot station component : String) : String :=
  product ++ "/roi/" ++ lot ++ "/" ++ station ++ "/" ++ component

/-- Whether a rendered path lies inside the given product's subtree: its
first `/`-separated segment is the product id, i.e. the path starts with
`product ++ "/"` (stated over the character lists so it is computable by
the kernel). -/
def underProduct (s product : String) : Bool :=
  List.isPrefixOf (product ++ "/").data s.data

/-! ## `move_files` (data_processor.py lines 1878-2168)

The filesystem is an oracle record of exactly the facts the function
branches on.  Moving a file flips its source-existence flag, so repeated
file types in one call behave as in the source (the second occurrence finds
the source gone). -/

/-- The four recognized `file_types` entries.  A string outside these four
matches no branch of the `if/elif` chain and has no effect; it is not
representable here. -/
inductive FileType
  | csv
  | map
  | org
  | roi
deriving DecidableEq, Repr

/-- Result of `_check_path_development_stage` (data_processor.py lines
381-394): `complete` / `partial` / `base` / `none`, plus `error` when the
probe raised.  The source's `else` branch treats `none` and `error` alike. -/
inductive PathStage
  | complete
  | partway
  | baseOnly
  | absent
  | errorStage
deriving DecidableEq, Repr

/-- Filesystem facts `move_files` consults.  `stationIdx` is
`station_order.index(station)`; `none` models the `ValueError` raised while
the `map_types` list is being built (before any map file moves).
`orgMoveOk` / `roiMoveOk`: whether `shutil.move` of the directory succeeds
when its stage is `complete`.  A csv / map file whose source exists is
moved without failure here; in the source an exception from that
`shutil.move` would land in the per-file-type handler, leaving the path
field unchanged and recording a failure — the same shape as the
missing-source branch. -/
structure MoveFs where
  csvSourceExists : Bool
  basemapSourceExists : Bool
  lossmapSourceExists : Bool
  fpySourceExists : Bool
  stationIdx : Option Nat
  orgStage : PathStage
  roiStage : PathStage
  orgMoveOk : Bool
  roiMoveOk : Bool
deriving DecidableEq, Repr

/-- Arguments of `move_files` after the component and lot lookups
succeeded: `original_lot_id` is `lot_obj.original_lot_id` (line 1939), used
in every path template. -/
structure MoveArgs where
  component_id : String
  lot_id : String
  station : String
  source_product : String
  target_product : String
  original_lot_id : String
deriving DecidableEq, Repr

/-- Running state of the `for file_type in file_types` loop: the component
being mutated, the filesystem, the lengths of `moved_files` /
`failed_files`, and how many times `_monitor_path_completion` /
`_add_to_retry_queue` were invoked. -/
structure MoveState where
  comp : ComponentInfo
  fs : MoveFs
  moved : Nat
  failed : Nat
  monitorAdds : Nat
  retryAdds : Nat
deriving DecidableEq, Repr

/-- One iteration of the `for file_type in file_types` loop of `move_files`
(lines 1945-2140).  `csv`: move the file and update `csv_path`, or record
failure.  `map`: build `map_types` (raising when the station is not in
`station_order`), then move whichever of basemap / lossmap / FPY exists,
updating the matching path field; a missing map records no failure.
`org` / `roi`: dispatch on the path stage; only `complete` moves, and
neither branch ever updates `org_path` / `roi_path` on the component. -/
def processFileType (a : MoveArgs) (st : MoveState) : FileType → MoveState
  | .csv =>
    if st.fs.csvSourceExists then
      let tgt := csvFilePath a.target_product a.original_lot_id a.station a.component_id
      { st with
        comp := { st.comp with csv_path := some tgt }
        fs := { st.fs with csvSourceExists := false }
        moved := st.moved + 1 }
    else { st with failed := st.failed + 1 }
  | .map =>
    match st.fs.stationIdx with
    | none => { st with failed := st.failed + 1 }
    | some idx =>
      let st1 :=
        if st.fs.basemapSourceExists then
          let tgt := basemapFilePath a.target_product a.original_lot_id a.station a.component_id
          { st with
            comp := { st.comp with basemap_path := some tgt }
            fs := { st.fs with basemapSourceExists := false }
            moved := st.moved + 1 }
        else st
      let st2 :=
        if st1.fs.lossmapSourceExists then
          let tgt := lossmapFilePath a.target_product a.original_lot_id idx a.component_id
          { st1 with
            comp := { st1.comp with lossmap_path := some tgt }
            fs := { st1.fs with lossmapSourceExists := false }
            moved := st1.moved + 1 }
        else st1
      if st2.fs.fpySourceExists then
        let tgt := fpyFilePath a.target_product a.original_lot_id a.component_id
        { st2 with
          comp := { st2.comp with fpy_path := some tgt }
          fs := { st2.fs with fpySourceExists := false }
          moved := st2.moved + 1 }
      else st2
  | .org =>
    match st.fs.orgStage with
    | .complete =>
      if st.fs.orgMoveOk then
        { st with fs := { st.fs with orgStage := .partway }, moved := st.moved + 1 }
      else { st with failed := st.failed + 1 }
    | .partway => { st with failed := st.failed + 1, monitorAdds := st.monitorAdds + 1 }
    | .baseOnly => { st with failed := st.failed + 1, monitorAdds := st.monitorAdds + 1 }
    | _ => { st with failed := st.failed + 1, retryAdds := st.retryAdds + 1 }
  | .roi =>
    match st.fs.roiStage with
    | .complete =>
      if st.fs.roiMoveOk then
        { st with fs := { st.fs with roiStage := .partway }, moved := st.moved + 1 }
      else { st with failed := st.failed + 1 }
    | .partway => { st with failed := st.failed + 1, monitorAdds := st.monitorAdds + 1 }
    | .baseOnly => { st with failed := st.failed + 1, monitorAdds := st.monitorAdds + 1 }
    | _ => { st with failed := st.failed + 1, retryAdds := st.retryAdds + 1 }

/-- The result message of `move_files` (lines 2150-2156). -/
def renderMoveMessage (moved failed : Nat) : String :=
  if moved > 0 && failed > 0 then
    "成功移動 " ++ toString moved ++ " 個檔案; 失敗 " ++ toString failed ++ " 個檔案"
  else if moved > 0 then "成功移動 " ++ toString moved ++ " 個檔案"
  else if failed > 0 then "失敗 " ++ toString failed ++ " 個檔案"
  else "沒有檔案需要移動"

/-- What `move_files` leaves behind. -/
structure MoveResult where
  ok : Bool
  message : String
  comp : ComponentInfo
  fs : MoveFs
  moved : Nat
  failed : Nat
  monitorAdds : Nat
  retryAdds : Nat
deriving DecidableEq, Repr

/-- `move_files` after the component and lot lookups succeeded: run the
file-type loop, then set `component.product_id = target_product`
(line 2143 — unconditionally, a dynamically attached attribute) and return
`(success_count > 0 or fail_count == 0, message)` (line 2164). -/
def moveFiles (a : MoveArgs) (comp : ComponentInfo) (fs : MoveFs)
    (file_types : List FileType) : MoveResult :=
  let st := file_types.foldl (processFileType a)
    { comp := comp, fs := fs, moved := 0, failed := 0, monitorAdds := 0, retryAdds := 0 }
  { ok := (st.moved != 0) || (st.failed == 0)
    message := renderMoveMessage st.moved st.failed
    comp := { st.comp with product_id := some a.target_product }
    fs := st.fs
    moved := st.moved
    failed := st.failed
    monitorAdds := st.monitorAdds
    retryAdds := st.retryAdds }

/-! ## `batch_move_files` (data_processor.py lines 2170-2352)

Before anything else the function calls
`online_manager.create_log(...)` (line 2198).  `OnlineProcessManager`
(online_monitor.py lines 270-480) defines no method of that name, the
name is defined nowhere in the repository, and the class has no
`__getattr__`, so the attribute access raises `AttributeError` on every
call; the outer `except` at line 2345 (with `batch_log` never bound)
returns the exception text.  The whole aggregation body below the call is
dead code; it is still modeled faithfully (`batchMoveBody`), guarded by
the attribute lookup.

Inside that body, each component's `move_files` call runs inside a worker
whose outcome is one of: returned success, returned failure, or raised
(caught by `move_single_component` or by the `future.result()` handler —
both add to the failure count).  The pool is
`ThreadPoolExecutor(max_workers=min(4, total_components))`; for an empty
input `min(4, 0) = 0` and the constructor raises
`ValueError("max_workers must be greater than 0")`. -/

/-- The methods `OnlineProcessManager` defines (online_monitor.py lines
270-480, in source order): `create_log` is not among them. -/
def onlineManagerMethods : List String :=
  ["start", "stop", "enqueue_file", "_process_next", "_on_task_completed",
   "clear_logs", "get_logs"]

/-- A method call `online_manager.<method>(...)`: plain attribute lookup
(the class defines no `__getattr__`), raising `AttributeError` with the
CPython message when the name is not defined. -/
def onlineManagerCall (method : String) : Except String Unit :=
  if onlineManagerMethods.contains method then Except.ok ()
  else
    Except.error
      ("'OnlineProcessManager' object has no attribute '" ++ method ++ "'")

/-- The outcome of one component's worker inside `batch_move_files`. -/
inductive MoveOutcome
  | ok (msg : String)
  | err (msg : String)
  | exc (msg : String)
deriving DecidableEq, Repr

/-- Whether a worker outcome counts as success. -/
def outcomeOk : MoveOutcome → Bool
  | .ok _ => true
  | .err _ => false
  | .exc _ => false

/-- The completion message of `batch_move_files` (lines 2318-2324). -/
def renderBatchMessage (s f : Nat) : String :=
  if s > 0 && f > 0 then
    "成功處理 " ++ toString s ++ " 個組件; 失敗 " ++ toString f ++ " 個組件"
  else if s > 0 then "成功處理 " ++ toString s ++ " 個組件"
  else if f > 0 then "失敗 " ++ toString f ++ " 個組件"
  else "沒有組件需要處理"

/-- What `batch_move_files` leaves behind.  `max_workers` is the bound
passed to the thread pool. -/
structure BatchResult where
  ok : Bool
  message : String
  success_count : Nat
  fail_count : Nat
  max_workers : Nat
deriving DecidableEq, Repr

/-- The aggregation body of `batch_move_files` (lines 2206-2343), reached
only after the `create_log` call at line 2198 returned — dead code in this
program.  For an empty input the `ThreadPoolExecutor` constructor raises
and the outer `except` returns the exception text; otherwise every outcome
is aggregated into the success / failure counts and the task completes
with the counts message, `overall_success = success_count > 0 or
fail_count == 0`. -/
def batchMoveBody (outcomes : List MoveOutcome) : BatchResult :=
  if outcomes.isEmpty then
    { ok := false
      message := "批量移動失敗: max_workers must be greater than 0"
      success_count := 0
      fail_count := 0
      max_workers := 0 }
  else
    let s := outcomes.countP outcomeOk
    let f := outcomes.countP fun o => !(outcomeOk o)
    { ok := (s != 0) || (f == 0)
      message := renderBatchMessage s f
      success_count := s
      fail_count := f
      max_workers := min 4 outcomes.length }

/-- `batch_move_files` (lines 2170-2352): the `create_log` attribute
lookup at line 2198 raises before the thread pool is built, the outer
`except` at line 2345 catches it (`batch_log` is not in `locals()`), and
the function returns `(False, "批量移動失敗: " + str(e))` — on every input. -/
def batchMoveFiles (outcomes : List MoveOutcome) : BatchResult :=
  match onlineManagerCall "create_log" with
  | Except.error e =>
    { ok := false
      message := "批量移動失敗: " ++ e
      success_count := 0
      fail_count := 0
      max_workers := 0 }
  | Except.ok _ => batchMoveBody outcomes

/-! ## Retry queue (data_processor.py lines 396-461)

`self.retry_queue` is a dict keyed by component id; `_process_retry_queue`
walks a snapshot of its items and handles each entry independently, so the
model follows one entry (one component's slot: `Option RetryEntry`).
Times are seconds. -/

/-- One entry of `self.retry_queue` (lines 402-412). -/
structure RetryEntry where
  lot_id : String
  station : String
  source_product : String
  target_product : String
  file_types : List FileType
  reason : String
  retry_time : Nat
  retry_count : Nat
  max_retries : Nat
deriving DecidableEq, Repr

/-- `_add_to_retry_queue` (lines 396-415): stamp the entry with
`retry_time = now + retry_delay` (the parameter defaults to 300 and every
caller uses the default), `retry_count = 0`, `max_retries = 5`. -/
def addToRetryQueue (now : Nat) (lot_id station source_product target_product : String)
    (file_types : List FileType) (reason : String) (retry_delay : Nat := 300) : RetryEntry :=
  { lot_id := lot_id
    station := station
    source_product := source_product
    target_product := target_product
    file_types := file_types
    reason := reason
    retry_time := now + retry_delay
    retry_count := 0
    max_retries := 5 }

/-- One sweep of `_process_retry_queue` (lines 417-436) together with
`_retry_component_move` (lines 438-461) for a single component's slot at
time `now`; `moveOk` is what `move_files` returns if it is attempted.
Returns the new slot and whether `move_files` was attempted.  An entry
whose time has not arrived is untouched; a due entry with
`retry_count < max_retries` is retried — removed on success, and on
failure `retry_count` is incremented and
`retry_time := now + min(300 * 2 ^ retry_count, 3600)`; a due entry at or
past `max_retries` is removed with a warning, unattempted. -/
def sweepRetryEntry (now : Nat) (moveOk : Bool) : Option RetryEntry → Option RetryEntry × Bool
  | none => (none, false)
  | some e =>
    if now < e.retry_time then (some e, false)
    else if e.retry_count < e.max_retries then
      if moveOk then (none, true)
      else
        let c := e.retry_count + 1
        (some { e with retry_count := c, retry_time := now + min (300 * 2 ^ c) 3600 }, true)
    else (none, false)

/-- Run a sequence of sweeps `(time, move_files outcome)` over one
component's retry slot, counting how many times `move_files` was
attempted. -/
def runRetrySweeps (sweeps : List (Nat × Bool)) (s : Option RetryEntry) :
    Option RetryEntry × Nat :=
  sweeps.foldl
    (fun acc sw =>
      let r := sweepRetryEntry sw.1 sw.2 acc.1
      (r.1, acc.2 + (if r.2 then 1 else 0)))
    (s, 0)

/-! ## DelayedMoveManager (data_processor.py lines 88-337)

`self.scheduler` is a single-shot `QTimer`; `start_scheduler` refuses to
arm it while `self.is_running` is true (lines 236-238), and firing a
single-shot timer leaves it unarmed.  `process_delayed_moves` resets
`is_running` before rescheduling only on the non-empty-queue path
(line 336); the empty-queue path (lines 282-286) calls `start_scheduler`
with `is_running` still true. -/

/-- One item of the delayed-move queue (lines 118-125; the enqueue
timestamp is dropped when the queue is drained, lines 300-306). -/
structure DelayedEntry where
  component_id : String
  lot_id : String
  station : String
  source_product : String
deriving DecidableEq, Repr

/-- Manager state: the FIFO queue, the `is_running` flag and whether the
single-shot timer is currently armed. -/
structure DelayedState where
  queue : List DelayedEntry
  is_running : Bool
  timer_armed : Bool
deriving DecidableEq, Repr

/-- The `batch_move_files` task `process_delayed_moves` creates
(lines 318-329): the drained components in FIFO order, the configured
target product and the configured delayed file types. -/
structure BatchTask where
  components : List DelayedEntry
  target_product : String
  file_types : List FileType
deriving DecidableEq, Repr

/-- `start_scheduler` (lines 234-270): a no-op while `is_running` is true;
otherwise set `is_running` and arm the timer for the next configured
occurrence. -/
def startScheduler (s : DelayedState) : DelayedState :=
  if s.is_running then s
  else { s with is_running := true, timer_armed := true }

/-- `process_delayed_moves` (lines 278-337), run when the single-shot
timer fires (so the timer is unarmed on entry to the body).  Empty queue:
call `start_scheduler` and create no task — but `is_running` is still
true, so `start_scheduler` returns without arming anything.  Non-empty
queue: drain it in FIFO order into exactly one `batch_move_files` task,
reset `is_running` and reschedule. -/
def processDelayedMoves (target_product : String) (delayed_file_types : List FileType)
    (s : DelayedState) : DelayedState × Option BatchTask :=
  let s0 : DelayedState := { s with timer_armed := false }
  if s0.queue.isEmpty then
    (startScheduler s0, none)
  else
    let task : BatchTask :=
      { components := s0.queue, target_product := target_product,
        file_types := delayed_file_types }
    (startScheduler { s0 with queue := [], is_running := false }, some task)

/-! ## Catalog lookup (database_manager.py lines 355-429)

`data_cache["lots"]` is a dict `lot_id → LotInfo` (modeled as a list of
values in insertion order; a direct `get` is a first-match scan, exact for
a dict when the internal ids are distinct).  `data_cache["components"]` is
a dict keyed by `"{product}_{lot}_{station}_{component}"`. -/

/-- `LotInfo` restricted to the fields the lookups read. -/
structure LotInfo where
  lot_id : String
  product_id : String
  original_lot_id : String
deriving DecidableEq, Repr

/-- The two in-memory indexes `get_component` consults. -/
structure Catalog where
  lots : List LotInfo
  components : List (String × ComponentInfo)
deriving DecidableEq, Repr

/-- The component key `"{product_id}_{lot_id}_{station}_{component_id}"`
(database_manager.py line 428). -/
def componentKey (product_id lot_id station component_id : String) : String :=
  product_id ++ "_" ++ lot_id ++ "_" ++ station ++ "_" ++ component_id

/-- `self.data_cache["lots"].get(lot_id)` — the dict lookup by internal
id. -/
def getLotDirect (cat : Catalog) (lot_id : String) : Option LotInfo :=
  cat.lots.find? fun l => l.lot_id == lot_id

/-- `DatabaseManager.get_component` (lines 408-429): resolve the lot by
internal id, else by scanning all lots for a matching `original_lot_id`
(first match wins), then look the component up under the key built from
the resolved lot's product and internal id. -/
def getComponent (cat : Catalog) (lot_id station component_id : String) :
    Option ComponentInfo :=
  let lot? :=
    match getLotDirect cat lot_id with
    | some l => some l
    | none => cat.lots.find? fun l => l.original_lot_id == lot_id
  match lot? with
  | none => none
  | some lot =>
    (cat.components.find? fun kv =>
      kv.1 == componentKey lot.product_id lot.lot_id station component_id).map (·.2)

/-! ## `StorageMoveManager.safe_move_file` (storage_manager.py lines 36-69)

The oracle records the filesystem facts one call consults: whether the
source exists and its size, what `StorageMonitor.get_disk_usage` reports
for the target disk (`none` = the probe failed, in which case the space
check is skipped by the `if target_usage and …` guard), and how
`shutil.copy2` ends.  Sizes are bytes; the source compares
`free_gb < size/(1024**3)` after float division — the same inequality over
bytes. -/

/-- How `shutil.copy2` ends: it returned and the target was written with
the given size, or it raised — possibly leaving a partial target behind. -/
inductive CopyOutcome
  | copied (targetSize : Nat)
  | raised (partialLeft : Bool) (msg : String)
deriving DecidableEq, Repr

/-- Filesystem facts one `safe_move_file` call consults. -/
structure SafeMoveFs where
  sourceExists : Bool
  sourceSize : Nat
  freeBytes : Option Nat
  copyOutcome : CopyOutcome
deriving DecidableEq, Repr

/-- What the call leaves behind: the returned pair, whether the source
file was deleted, and whether a partial target file remains. -/
structure SafeMoveResult where
  ok : Bool
  message : String
  sourceRemoved : Bool
  partialTargetLeft : Bool
deriving DecidableEq, Repr

/-- The guard `if target_usage and target_usage['free_gb'] <
os.path.getsize(source)/(1024**3)` (line 49): true exactly when the usage
probe answered and reported less free space than the source size. -/
def spaceInsufficient (fs : SafeMoveFs) : Bool :=
  match fs.freeBytes with
  | some free => free < fs.sourceSize
  | none => false

/-- `safe_move_file` (lines 36-69): verify the source exists; ensure the
target directory; abort when the probe reports insufficient space; copy
with `shutil.copy2`; on return verify the target exists with the source's
size and only then delete the source; a failed verification removes the
target; an exception anywhere (in particular inside the copy) is caught at
line 67 and reported — without any cleanup of a partial target. -/
def safeMoveFile (fs : SafeMoveFs) : SafeMoveResult :=
  if !fs.sourceExists then
    { ok := false, message := "源檔案不存在",
      sourceRemoved := false, partialTargetLeft := false }
  else if spaceInsufficient fs then
    { ok := false, message := "目標硬碟空間不足",
      sourceRemoved := false, partialTargetLeft := false }
  else
    match fs.copyOutcome with
    | .raised p m =>
      { ok := false, message := "移動失敗: " ++ m,
        sourceRemoved := false, partialTargetLeft := p }
    | .copied t =>
      if t == fs.sourceSize then
        { ok := true, message := "移動成功",
          sourceRemoved := true, partialTargetLeft := false }
      else
        { ok := false, message := "檔案複製驗證失敗",
          sourceRemoved := false, partialTargetLeft := false }

/-! ## `check_csv_alignment` (data_utils.py lines 510-575) -/

/-- A `(Col, Row, DefectType)` triple: a reference point of a recipe, and
also a data row of the CSV as the alignment check reads it.  The source
additionally skips config entries that are not lists of length ≥ 3; config
entries are modeled well-formed, so that guard always passes. -/
structure AlignPoint where
  col : Int
  row : Int
  defectType : String
deriving DecidableEq, Repr

/-- The three statuses `check_csv_alignment` returns. -/
inductive AlignStatus
  | success
  | fail
  | error
deriving DecidableEq, Repr

/-- What one `check_csv_alignment` call reads: the recipe's reference
points (`align_config.get(recipe, [])`), the result of `find_header_row`,
whether `pd.read_csv` succeeded, whether `Col`/`Row`/`DefectType` are all
present, and the `(Col, Row, DefectType)` triples of the parsed table. -/
structure AlignInput where
  recipePoints : List AlignPoint
  headerRow : Option Nat
  readOk : Bool
  hasRequiredCols : Bool
  rows : List AlignPoint
deriving DecidableEq, Repr

/-- `check_csv_alignment` (lines 510-575): `error` when the recipe has no
reference points, no header row is found, the CSV cannot be read or a
required column is missing; otherwise count the reference points that
appear exactly in the table and return `success` when at least one is
found, `fail` when none is. -/
def checkCsvAlignment (a : AlignInput) : AlignStatus × String :=
  if a.recipePoints.isEmpty then (.error, "找不到配方的對齊關鍵字")
  else
    match a.headerRow with
    | none => (.error, "找不到CSV標頭行")
    | some _ =>
      if !a.readOk then (.error, "讀取CSV失敗")
      else if !a.hasRequiredCols then (.error, "CSV缺少必要列")
      else
        let found := a.recipePoints.countP fun p => a.rows.contains p
        if found > 0 then
          (.success, "對齊正確，找到 " ++ toString found ++ "/" ++
            toString a.recipePoints.length ++ " 個對齊點")
        else (.fail, "找不到任何對齊點，需要至少1個匹配")

/-! ## `generate_basemap` (data_processor.py lines 684-866)

The config files, the header strip, the CSV load and the PNG render are
I/O; the oracle `BasemapEnv` records what each of them would answer.  The
component record is threaded through explicitly (the source mutates it and
calls `db_manager.update_component`). -/

/-- One entry of `sample_rules.json` for a station: whether the three
referenced config files exist. -/
structure SampleRule where
  formulasExists : Bool
  maskExists : Bool
  plotExists : Bool
deriving DecidableEq, Repr

/-- The oracle for one `generate_basemap` run.  `lotFound`: whether
`db_manager.get_lot(component.lot_id)` finds the lot (when it does not,
the attribute access on `None` raises and the outer `except` reports
`"生成失敗: …"` with the exception text `excMsg`).  `isAoiName` /
`strippedNameProcessed` / `origNameProcessed`: the regex matches
`AOI_FILENAME_PATTERN` on the current file name and
`PROCESSED_FILENAME_PATTERN` on the post-strip / original name.
`extractedId`: `extract_component_from_filename` of the AOI name.
`basemapOutPath`: the computed render target
`map/{original_lot}/{station}/{csv stem}.png`.
`moveFs` / `immediateFileTypes` / `autoMoveTarget` / `autoMoveEnabled`
feed the immediate-move hook `_auto_move_immediate_files`. -/
structure BasemapEnv where
  csvPathExists : Bool
  isAoiName : Bool
  lotFound : Bool
  excMsg : String
  sourceProduct : String
  originalLotId : String
  sampleRulesFileExists : Bool
  stationRule : Option SampleRule
  alignConfigFileExists : Bool
  alignInput : AlignInput
  extractedId : Option String
  stripOk : Bool
  stripErrMsg : String
  strippedNameProcessed : Bool
  origNameProcessed : Bool
  csvFileName : String
  loadCsvOk : Bool
  plotConfigReadOk : Bool
  plotCfgErr : String
  plotOk : Bool
  basemapOutPath : String
  autoMoveEnabled : Bool
  autoMoveTarget : String
  immediateFileTypes : List FileType
  moveFs : MoveFs
deriving DecidableEq, Repr

/-- `_auto_move_immediate_files` (data_processor.py lines 2354-2419),
invoked after a successful basemap render: a no-op unless auto-move is
enabled, the lot is found and the owning product differs from the
configured target; otherwise it runs `move_files` for the configured
immediate file types on the same component.  (On success it additionally
enqueues a delayed-move entry; that mutates the `DelayedMoveManager`, not
the component.) -/
def autoMoveHook (env : BasemapEnv) (comp : ComponentInfo) : ComponentInfo :=
  if !env.autoMoveEnabled then comp
  else if !env.lotFound then comp
  else if env.sourceProduct == env.autoMoveTarget then comp
  else
    (moveFiles
      { component_id := comp.component_id
        lot_id := comp.lot_id
        station := comp.station
        source_product := env.sourceProduct
        target_product := env.autoMoveTarget
        original_lot_id := env.originalLotId }
      comp env.moveFs env.immediateFileTypes).comp

/-- Step 4 of `generate_basemap` (lines 786-862).  `rulesLoaded`: whether
the AOI branch already loaded `sample_rules` (when it did not, lines
790-802 reload the file and re-check only its presence and the station
entry).  Then: load the processed CSV, apply mask and flip (pure transforms
of the in-memory table, no effect on the component), resolve the lot for
the map directory, read the plot config and render; on success set
`basemap_path` and invoke the immediate-move hook. -/
def basemapStep4 (env : BasemapEnv) (comp : ComponentInfo) (rulesLoaded : Bool) :
    (Bool × String) × ComponentInfo :=
  if !rulesLoaded && !env.sampleRulesFileExists then
    ((false, "找不到sample_rules.json配置檔案"), comp)
  else if !rulesLoaded && env.stationRule.isNone then
    ((false, "在sample_rules中找不到站點 " ++ comp.station ++ " 的配置"), comp)
  else if !env.loadCsvOk then ((false, "讀取處理後的CSV失敗"), comp)
  else if !env.lotFound then ((false, "生成失敗: " ++ env.excMsg), comp)
  else if !env.plotConfigReadOk then
    ((false, "讀取繪圖配置失敗: " ++ env.plotCfgErr), comp)
  else if env.plotOk then
    let comp1 := { comp with basemap_path := some env.basemapOutPath }
    ((true, env.basemapOutPath), autoMoveHook env comp1)
  else ((false, "生成Basemap失敗"), comp)

/-- `generate_basemap` (lines 684-866).  For a raw AOI-named CSV, steps
1-3 run first: read `sample_rules` and check the referenced files, read
`align_key_config` and run `check_csv_alignment` — only a `fail` status
aborts (line 738); an `error` status is not examined and processing
continues — then strip the header into
`csv/{original_lot}/{station}/{component_id}.csv`, updating
`original_csv_path` to the old `csv_path` and `csv_path` to the strip
target.  A file already named like a processed CSV skips steps 1-3.
Either way the (possibly new) name must match
`PROCESSED_FILENAME_PATTERN`, then step 4 renders. -/
def generateBasemap (env : BasemapEnv) (comp : ComponentInfo) :
    (Bool × String) × ComponentInfo :=
  if !env.csvPathExists then ((false, "找不到CSV檔案"), comp)
  else if env.isAoiName then
    if !env.lotFound then ((false, "生成失敗: " ++ env.excMsg), comp)
    else if !env.sampleRulesFileExists then
      ((false, "找不到sample_rules.json配置檔案"), comp)
    else
      match env.stationRule with
      | none => ((false, "在sample_rules中找不到站點 " ++ comp.station ++ " 的配置"), comp)
      | some rule =>
        if !rule.formulasExists then ((false, "找不到formula配置檔案"), comp)
        else if !rule.plotExists then ((false, "找不到plot配置檔案"), comp)
        else if !env.alignConfigFileExists then
          ((false, "找不到align_key_config.json配置檔案"), comp)
        else
          let res := checkCsvAlignment env.alignInput
          if res.1 == AlignStatus.fail then
            ((false, "CSV檔案偏移錯誤: " ++ res.2), comp)
          else
            let cid := env.extractedId.getD comp.component_id
            let target := csvFilePath env.sourceProduct env.originalLotId comp.station cid
            if !env.stripOk then ((false, "處理CSV標頭失敗: " ++ env.stripErrMsg), comp)
            else
              let comp1 :=
                { comp with original_csv_path := comp.csv_path, csv_path := some target }
              if !env.strippedNameProcessed then
                ((false, "CSV檔案 " ++ cid ++ ".csv 格式不正確，無法生成Basemap"), comp1)
              else basemapStep4 env comp1 true
  else if !env.origNameProcessed then
    ((false, "CSV檔案 " ++ env.csvFileName ++ " 格式不正確，無法生成Basemap"), comp)
  else basemapStep4 env comp false

/-- Proof infrastructure for the `move_files` loop: relative to the
component `comp0` and the station index `idx0` the loop started from, the
running state keeps `stationIdx` constant, never touches `org_path` /
`roi_path` / `original_csv_path` / the `product_id` attribute, and each of
`csv_path` / `basemap_path` / `lossmap_path` / `fpy_path` is either still
the original value or the rendered target-product path. -/
def MoveLoopInv (a : MoveArgs) (comp0 : ComponentInfo) (idx0 : Option Nat)
    (st : MoveState) : Prop :=
  st.fs.stationIdx = idx0 ∧
  st.comp.org_path = comp0.org_path ∧
  st.comp.roi_path = comp0.roi_path ∧
  st.comp.original_csv_path = comp0.original_csv_path ∧
  st.comp.product_id = comp0.product_id ∧
  (st.comp.csv_path = comp0.csv_path ∨
    st.comp.csv_path =
      some (csvFilePath a.target_product a.original_lot_id a.station a.component_id)) ∧
  (st.comp.basemap_path = comp0.basemap_path ∨
    st.comp.basemap_path =
      some (basemapFilePath a.target_product a.original_lot_id a.station a.component_id)) ∧
  (st.comp.lossmap_path = comp0.lossmap_path ∨
    ∃ i, idx0 = some i ∧
      st.comp.lossmap_path =
        some (lossmapFilePath a.target_product a.original_lot_id i a.component_id)) ∧
  (st.comp.fpy_path = comp0.fpy_path ∨
    st.comp.fpy_path =
      some (fpyFilePath a.target_product a.original_lot_id a.component_id))

/-! ## Theorems -/


/-- C10: the catalog cache round trip is lossy exactly for `roi_path`:
`to_dict` serializes every field including `roi_path`, but the
`ComponentInfo(...)` call in `_load_cache` never passes `roi_path`, so
after save-then-load `roi_path` is `None` while every other path field
(and the identifying fields) survives. -/
theorem cache_roundtrip_drops_roi_path (c : ComponentInfo) :
    (ComponentInfo.toDict c).roi_path = c.roi_path ∧
    (loadComponentFromDict (ComponentInfo.toDict c)).roi_path = none ∧
    (loadComponentFromDict (ComponentInfo.toDict c)).org_path = c.org_path ∧
    (loadComponentFromDict (ComponentInfo.toDict c)).csv_path = c.csv_path ∧
    (loadComponentFromDict (ComponentInfo.toDict c)).original_csv_path = c.original_csv_path ∧
    (loadComponentFromDict (ComponentInfo.toDict c)).basemap_path = c.basemap_path ∧
    (loadComponentFromDict (ComponentInfo.toDict c)).lossmap_path = c.lossmap_path ∧
    (loadComponentFromDict (ComponentInfo.toDict c)).fpy_path = c.fpy_path ∧
    (loadComponentFromDict (ComponentInfo.toDict c)).component_id = c.component_id ∧
    (loadComponentFromDict (ComponentInfo.toDict c)).lot_id = c.lot_id ∧
    (loadComponentFromDict (ComponentInfo.toDict c)).station = c.station := by
  refine ⟨rfl, rfl, rfl, rfl, rfl, rfl, rfl, rfl, rfl, rfl, rfl⟩

/-- C4: retry-queue behaviour.  An added entry is stamped
`retry_time = now + 300`, `retry_count = 0`, `max_retries = 5`; a due
entry below the retry cap is retried — removed on success, on failure its
counter is incremented (staying ≤ 5) and the next attempt is
`min(300·2^count, 3600)` seconds out; a due entry at the cap is removed
(with a warning) without an attempt; consequently an always-failing entry
added at time 0 is attempted exactly 5 times — at its due times
300, 900, 2100, 4500, 8100 — and the sweep at 11700 removes it without a
sixth attempt. -/
theorem retry_queue_backoff :
    (∀ (now : Nat) (l s sp tp : String) (fts : List FileType) (r : String),
      (addToRetryQueue now l s sp tp fts r).retry_time = now + 300 ∧
      (addToRetryQueue now l s sp tp fts r).retry_count = 0 ∧
      (addToRetryQueue now l s sp tp fts r).max_retries = 5) ∧
    (∀ (now : Nat) (e : RetryEntry), e.retry_time ≤ now →
      e.retry_count < e.max_retries →
      sweepRetryEntry now true (some e) = (none, true)) ∧
    (∀ (now : Nat) (e : RetryEntry), e.retry_time ≤ now →
      e.retry_count < e.max_retries →
      sweepRetryEntry now false (some e) =
        (some { e with retry_count := e.retry_count + 1,
                       retry_time := now + min (300 * 2 ^ (e.retry_count + 1)) 3600 }, true)) ∧
    (∀ e : RetryEntry, e.max_retries = 5 → e.retry_count < e.max_retries →
      e.retry_count + 1 ≤ 5) ∧
    (∀ (now : Nat) (b : Bool) (e : RetryEntry), e.retry_time ≤ now →
      e.max_retries ≤ e.retry_count →
      sweepRetryEntry now b (some e) = (none, false)) ∧
    runRetrySweeps
        [(300, false), (900, false), (2100, false), (4500, false), (8100, false), (11700, false)]
        (some (addToRetryQueue 0 "L1" "MT" "P1" "P2" [FileType.org] "path missing")) =
      (none, 5) := by
  refine ⟨fun now l s sp tp fts r => ⟨rfl, rfl, rfl⟩, ?_, ?_, ?_, ?_, ?_⟩
  · intro now e h1 h2
    simp only [sweepRetryEntry]
    rw [if_neg (by omega), if_pos h2]
    simp
  · intro now e h1 h2
    simp only [sweepRetryEntry]
    rw [if_neg (by omega), if_pos h2]
    simp
  · intro e h1 h2
    omega
  · intro now b e h1 h2
    simp only [sweepRetryEntry]
    rw [if_neg (by omega), if_neg (by omega)]
  · decide

/-- C8: when the delayed-move timer fires on an empty queue, the code does
NOT reschedule: `is_running` is still true from the original
`start_scheduler`, so the rescheduling call returns without arming the
single-shot timer (it stays unarmed forever) — against the code's own
comment at data_processor.py line 284.  No task is created, as claimed.
The non-empty half of the claim does hold: the queue is drained into
exactly one `batch_move_files` task in FIFO order and the timer is
re-armed. -/
theorem delayed_fire_empty_queue_not_rescheduled :
    (processDelayedMoves "i-Pixel" [FileType.org, FileType.roi]
        { queue := [], is_running := true, timer_armed := true } =
      ({ queue := [], is_running := true, timer_armed := false }, none)) ∧
    (∀ (tp : String) (fts : List FileType) (s : DelayedState), s.queue ≠ [] →
      processDelayedMoves tp fts s =
        ({ queue := [], is_running := true, timer_armed := true },
         some { components := s.queue, target_product := tp, file_types := fts })) := by
  constructor
  · decide
  · intro tp fts s h
    simp [processDelayedMoves, startScheduler, List.isEmpty_iff, h]

/-- C3: `batch_move_files` never reaches its worker pool: the
`online_manager.create_log` attribute lookup at data_processor.py
line 2198 names a method `OnlineProcessManager` does not define (the name
is defined nowhere in the repository), so every call — empty or
non-empty, before any `move_files` runs — raises `AttributeError` and
returns the exception text instead of a success / failure-count message.
The claimed aggregation behaviour is the function's (faithfully modeled)
dead code. -/
theorem batch_move_files_always_fails :
    (∀ outcomes : List MoveOutcome,
      batchMoveFiles outcomes =
        { ok := false
          message :=
            "批量移動失敗: 'OnlineProcessManager' object has no attribute 'create_log'"
          success_count := 0
          fail_count := 0
          max_workers := 0 }) ∧
    onlineManagerMethods.contains "create_log" = false := by
  exact ⟨fun outcomes => rfl, by decide⟩

/-- C9 counterexample: when `shutil.copy2` raises mid-copy (leaving a
partial target file), the `except` at storage_manager.py line 67 reports
the error but performs no cleanup, so the partial target remains — against
the claim's "on any failure the partial target is cleaned up". -/
theorem safe_move_copy_exception_leaves_partial :
    safeMoveFile
        { sourceExists := true, sourceSize := 100, freeBytes := some 1000,
          copyOutcome := CopyOutcome.raised true "copy interrupted" } =
      { ok := false, message := "移動失敗: copy interrupted",
        sourceRemoved := false, partialTargetLeft := true } ∧
    (safeMoveFile
        { sourceExists := true, sourceSize := 100, freeBytes := some 1000,
          copyOutcome := CopyOutcome.raised true "copy interrupted" }).partialTargetLeft =
      true := by
  exact ⟨rfl, rfl⟩

/-- C9 (amended): `safe_move_file` verifies the source, ensures the target
directory, aborts when the probed free space is below the source size,
copies with metadata preservation and deletes the source exactly when the
copy was verified (target present with the source's size); a failed size
verification removes the partial target, but an exception raised by the
copy itself is reported without cleanup, so a partial target may remain on
that failure path; every failure is reported with an error message. -/
theorem safe_move_source_preserved (fs : SafeMoveFs) :
    ((safeMoveFile fs).sourceRemoved = true ↔ (safeMoveFile fs).ok = true) ∧
    ((safeMoveFile fs).ok = true ↔
      (fs.sourceExists = true ∧ spaceInsufficient fs = false ∧
        fs.copyOutcome = CopyOutcome.copied fs.sourceSize)) ∧
    (∀ t : Nat, fs.copyOutcome = CopyOutcome.copied t →
      (safeMoveFile fs).partialTargetLeft = false) ∧
    (∀ (p : Bool) (m : String), fs.sourceExists = true → spaceInsufficient fs = false →
      fs.copyOutcome = CopyOutcome.raised p m →
      safeMoveFile fs =
        { ok := false, message := "移動失敗: " ++ m,
          sourceRemoved := false, partialTargetLeft := p }) ∧
    ((safeMoveFile fs).ok = false → (safeMoveFile fs).message ≠ "移動成功") := by
  obtain ⟨se, ss, fb, co⟩ := fs
  cases se with
  | false =>
    refine ⟨by simp [safeMoveFile], by simp [safeMoveFile], ?_, ?_, ?_⟩
    · intro t _; simp [safeMoveFile]
    · intro p m hse; simp at hse
    · intro _; simp only [safeMoveFile]; simp only [Bool.not_false, if_true]
      decide
  | true =>
    by_cases hsp : spaceInsufficient ⟨true, ss, fb, co⟩ = true
    · refine ⟨by simp [safeMoveFile, hsp], ?_, ?_, ?_, ?_⟩
      · simp [safeMoveFile, hsp]
      · intro t _; simp [safeMoveFile, hsp]
      · intro p m _ hsp'; rw [hsp'] at hsp; cases hsp
      · intro _; simp only [safeMoveFile, hsp]; simp only [Bool.not_true, if_true]
        decide
    · rw [Bool.not_eq_true] at hsp
      cases co with
      | raised p m =>
        refine ⟨by simp [safeMoveFile, hsp], by simp [safeMoveFile, hsp], ?_, ?_, ?_⟩
        · intro t hco; cases hco
        · intro p' m' _ _ hco
          cases hco
          simp [safeMoveFile, hsp]
        · intro _
          simp only [safeMoveFile, hsp]
          simp only [Bool.not_true, Bool.false_eq_true, if_false]
          intro heq
          have hl := congrArg String.length heq
          rw [String.length_append] at hl
          have h6 : ("移動失敗: " : String).length = 6 := rfl
          have h4 : ("移動成功" : String).length = 4 := rfl
          omega
      | copied t =>
        by_cases ht : t = ss
        · subst ht
          refine ⟨by simp [safeMoveFile, hsp], by simp [safeMoveFile, hsp], ?_, ?_, ?_⟩
          · intro t' _; simp [safeMoveFile, hsp]
          · intro p' m' _ _ hco; cases hco
          · intro hok; simp [safeMoveFile, hsp] at hok
        · refine ⟨by simp [safeMoveFile, hsp, ht], ?_, ?_, ?_, ?_⟩
          · simp only [safeMoveFile, hsp]
            simp [Ne.symm ht, ht]
          · intro t' _; simp [safeMoveFile, hsp, ht]
          · intro p' m' _ _ hco; cases hco
          · intro _
            simp only [safeMoveFile, hsp]
            simp only [Bool.not_true, Bool.false_eq_true, if_false]
            rw [if_neg (by simpa using ht)]
            decide

/-- C5 counterexample: at `prev = [(1,1,binary=0)]`,
`curr = [(1,1,binary=1)]` the coordinate `(1,1)` is present in both inputs
— the inner merge is the single bad-to-good row — yet the result is empty:
the coordinate appears with NONE of the three statuses, so the claimed
partition of the inner-joined coordinate set fails. -/
theorem loss_points_drops_bad_to_good :
    calculateLossPoints [{ col := 1, row := 1, binary := 0 }]
        [{ col := 1, row := 1, binary := 1 }] = [] ∧
    innerMergeBin [{ col := 1, row := 1, binary := 0 }]
        [{ col := 1, row := 1, binary := 1 }] =
      [{ col := 1, row := 1, bprev := 0, bcurr := 1 }] := by
  exact ⟨rfl, rfl⟩

/-- Helper: membership in one classified-and-labeled subset of
`calculate_loss_points` is membership of the corresponding merged row. -/
theorem mem_classified_iff (merged : List MergedRow) (b1 b2 c r : Int)
    (s : LossStatus) :
    (({ col := c, row := r, status := s } : LossRow) ∈
        (merged.filter fun m => m.bprev == b1 && m.bcurr == b2).map
          (fun m => { col := m.col, row := m.row, status := s })) ↔
      ({ col := c, row := r, bprev := b1, bcurr := b2 } : MergedRow) ∈ merged := by
  simp only [List.mem_map, List.mem_filter, Bool.and_eq_true, beq_iff_eq,
    LossRow.mk.injEq]
  constructor
  · rintro ⟨m, ⟨hm, h1, h2⟩, hc, hr, -⟩
    have hm' : (⟨m.col, m.row, m.bprev, m.bcurr⟩ : MergedRow) ∈ merged := hm
    rw [hc, hr, h1, h2] at hm'
    exact hm'
  · intro hm
    exact ⟨⟨c, r, b1, b2⟩, ⟨hm, rfl, rfl⟩, rfl, rfl, trivial⟩

/-- Helper: a loss row whose status differs from a subset's label is not in
that subset. -/
theorem not_mem_classified_of_ne (merged : List MergedRow) (b1 b2 c r : Int)
    (s s' : LossStatus) (h : s ≠ s') :
    (({ col := c, row := r, status := s } : LossRow) ∉
      (merged.filter fun m => m.bprev == b1 && m.bcurr == b2).map
        (fun m => { col := m.col, row := m.row, status := s' })) := by
  simp only [List.mem_map, List.mem_filter, LossRow.mk.injEq, not_exists]
  rintro m ⟨-, -, -, hs⟩
  exact h hs.symm

/-- C5 (amended): `ClassifyLossPoints` labels the inner-merged rows whose
`(binary_prev, binary_curr)` pair is `(1,1)`, `(1,0)` or `(0,0)`: a
`(c,r)` row carries status `good_to_good` / `good_to_bad` / `bad_to_bad`
exactly when the corresponding merged row exists; every result row carries
one of those three statuses and no `bad_to_good` (or `unknown`) row is
ever produced — so merged rows with the bad-to-good pair `(0,1)` are
dropped from the result entirely rather than classified. -/
theorem loss_points_classification (prev curr : List BinRow) :
    (∀ lr ∈ calculateLossPoints prev curr,
      lr.status = LossStatus.good_to_good ∨ lr.status = LossStatus.good_to_bad ∨
        lr.status = LossStatus.bad_to_bad) ∧
    (∀ c r : Int,
      ((({ col := c, row := r, status := LossStatus.good_to_good } : LossRow) ∈
          calculateLossPoints prev curr) ↔
        ({ col := c, row := r, bprev := 1, bcurr := 1 } : MergedRow) ∈
          innerMergeBin prev curr) ∧
      ((({ col := c, row := r, status := LossStatus.good_to_bad } : LossRow) ∈
          calculateLossPoints prev curr) ↔
        ({ col := c, row := r, bprev := 1, bcurr := 0 } : MergedRow) ∈
          innerMergeBin prev curr) ∧
      ((({ col := c, row := r, status := LossStatus.bad_to_bad } : LossRow) ∈
          calculateLossPoints prev curr) ↔
        ({ col := c, row := r, bprev := 0, bcurr := 0 } : MergedRow) ∈
          innerMergeBin prev curr) ∧
      (({ col := c, row := r, status := LossStatus.bad_to_good } : LossRow) ∉
        calculateLossPoints prev curr)) := by
  constructor
  · intro lr hlr
    simp only [calculateLossPoints, List.mem_append, List.mem_map] at hlr
    rcases hlr with (⟨m, -, hm⟩ | ⟨m, -, hm⟩) | ⟨m, -, hm⟩ <;>
      rw [← hm] <;> simp
  · intro c r
    refine ⟨?_, ?_, ?_, ?_⟩
    · simp only [calculateLossPoints, List.mem_append]
      rw [mem_classified_iff]
      constructor
      · rintro ((h | h) | h)
        · exact h
        · exact absurd h (not_mem_classified_of_ne _ _ _ _ _ _ _ (by decide))
        · exact absurd h (not_mem_classified_of_ne _ _ _ _ _ _ _ (by decide))
      · intro h
        exact Or.inl (Or.inl h)
    · simp only [calculateLossPoints, List.mem_append]
      rw [mem_classified_iff]
      constructor
      · rintro ((h | h) | h)
        · exact absurd h (not_mem_classified_of_ne _ _ _ _ _ _ _ (by decide))
        · exact h
        · exact absurd h (not_mem_classified_of_ne _ _ _ _ _ _ _ (by decide))
      · intro h
        exact Or.inl (Or.inr h)
    · simp only [calculateLossPoints, List.mem_append]
      rw [mem_classified_iff]
      constructor
      · rintro ((h | h) | h)
        · exact absurd h (not_mem_classified_of_ne _ _ _ _ _ _ _ (by decide))
        · exact absurd h (not_mem_classified_of_ne _ _ _ _ _ _ _ (by decide))
        · exact h
      · intro h
        exact Or.inr h
    · simp only [calculateLossPoints, List.mem_append]
      rintro ((h | h) | h)
      · exact absurd h (not_mem_classified_of_ne _ _ _ _ _ _ _ (by decide))
      · exact absurd h (not_mem_classified_of_ne _ _ _ _ _ _ _ (by decide))
      · exact absurd h (not_mem_classified_of_ne _ _ _ _ _ _ _ (by decide))

/-- C6 counterexample: `flip_data` recomputes the axis maximum from the
data, so on `Col = [1,2]` the double flip gives `Col = [0,1]` — not the
original table, not even up to row order (the value 2 disappears). -/
theorem flip_twice_counterexample :
    flipData (flipData [{ col := 1, row := 0 }, { col := 2, row := 0 }]
        FlipAxis.horizontal) FlipAxis.horizontal =
      [{ col := 0, row := 0 }, { col := 1, row := 0 }] ∧
    ({ col := 2, row := 0 } : CRRow) ∈
      ([{ col := 1, row := 0 }, { col := 2, row := 0 }] : List CRRow) ∧
    ({ col := 2, row := 0 } : CRRow) ∉
      flipData (flipData [{ col := 1, row := 0 }, { col := 2, row := 0 }]
        FlipAxis.horizontal) FlipAxis.horizontal := by
  exact ⟨rfl, by decide, by decide⟩

/-- Helper: folding `max` over `m - x` values is `m` minus the fold of
`min`. -/
theorem foldl_max_map_sub (m : Int) :
    ∀ (xs : List Int) (a : Int),
      ((xs.map fun y => m - y).foldl max (m - a)) = m - xs.foldl min a := by
  intro xs
  induction xs with
  | nil => intro a; rfl
  | cons y ys ih =>
    intro a
    simp only [List.map_cons, List.foldl_cons]
    have hmax : max (m - a) (m - y) = m - min a y := by
      rcases le_total a y with h | h
      · rw [min_eq_left h, max_eq_left (by omega)]
      · rw [min_eq_right h, max_eq_right (by omega)]
    rw [hmax, ih (min a y)]

/-- Helper: the maximum of the flipped values `m - x` is `m` minus the
minimum of the originals (nonempty lists). -/
theorem listMaxInt_map_sub (m : Int) (xs : List Int) (h : xs ≠ []) :
    listMaxInt (xs.map fun y => m - y) = m - listMinInt xs := by
  cases xs with
  | nil => exact absurd rfl h
  | cons x t =>
    simp only [List.map_cons, listMaxInt, listMinInt]
    exact foldl_max_map_sub m t x

/-- C6 (amended): the double flip is a translation of the chosen axis by
its minimum — `Flip(Flip(df, ax), ax)` subtracts the axis minimum from
every coordinate (the first flip maps `x` to `max − x`; the second flip's
recomputed maximum is `max − min`, giving `x − min`).  It equals the
original table — even preserving row order — exactly when the axis
minimum is 0; for tables whose axis minimum is nonzero the claimed
involution fails. -/
theorem flip_twice_translates (df : List CRRow) (ax : FlipAxis) (h : df ≠ []) :
    (flipData (flipData df ax) ax =
      match ax with
      | FlipAxis.horizontal =>
        df.map fun r => { col := r.col - listMinInt (df.map (·.col)), row := r.row }
      | FlipAxis.vertical =>
        df.map fun r => { col := r.col, row := r.row - listMinInt (df.map (·.row)) }) ∧
    (ax = FlipAxis.horizontal → listMinInt (df.map (·.col)) = 0 →
      flipData (flipData df ax) ax = df) ∧
    (ax = FlipAxis.vertical → listMinInt (df.map (·.row)) = 0 →
      flipData (flipData df ax) ax = df) := by
  have hcols : df.map (·.col) ≠ [] := by
    cases df with
    | nil => exact absurd rfl h
    | cons a t => simp
  have hrows : df.map (·.row) ≠ [] := by
    cases df with
    | nil => exact absurd rfl h
    | cons a t => simp
  have main : flipData (flipData df ax) ax =
      match ax with
      | FlipAxis.horizontal =>
        df.map fun r => { col := r.col - listMinInt (df.map (·.col)), row := r.row }
      | FlipAxis.vertical =>
        df.map fun r => { col := r.col, row := r.row - listMinInt (df.map (·.row)) } := by
    cases ax with
    | horizontal =>
      have hM : listMaxInt ((flipData df FlipAxis.horizontal).map fun x : CRRow => x.col) =
          listMaxInt (df.map fun x : CRRow => x.col) -
            listMinInt (df.map fun x : CRRow => x.col) := by
        show listMaxInt ((df.map fun r : CRRow =>
            (⟨listMaxInt (df.map fun x : CRRow => x.col) - r.col, r.row⟩ : CRRow)).map
              fun x : CRRow => x.col) = _
        rw [List.map_map]
        rw [show ((fun x : CRRow => x.col) ∘ fun r : CRRow =>
            (⟨listMaxInt (df.map fun x : CRRow => x.col) - r.col, r.row⟩ : CRRow)) =
            ((fun y => listMaxInt (df.map fun x : CRRow => x.col) - y) ∘
              fun x : CRRow => x.col) from rfl]
        rw [← List.map_map, listMaxInt_map_sub _ _ hcols]
      show (flipData df FlipAxis.horizontal).map (fun r : CRRow =>
          (⟨listMaxInt ((flipData df FlipAxis.horizontal).map fun x : CRRow => x.col) -
            r.col, r.row⟩ : CRRow)) =
        df.map fun r => (⟨r.col - listMinInt (df.map (·.col)), r.row⟩ : CRRow)
      simp only [hM]
      rw [show flipData df FlipAxis.horizontal = df.map fun r : CRRow =>
          (⟨listMaxInt (df.map fun x : CRRow => x.col) - r.col, r.row⟩ : CRRow) from rfl]
      rw [List.map_map]
      apply List.map_congr_left
      intro r _
      simp only [Function.comp_apply, CRRow.mk.injEq]
      exact ⟨by omega, trivial⟩
    | vertical =>
      have hM : listMaxInt ((flipData df FlipAxis.vertical).map fun x : CRRow => x.row) =
          listMaxInt (df.map fun x : CRRow => x.row) -
            listMinInt (df.map fun x : CRRow => x.row) := by
        show listMaxInt ((df.map fun r : CRRow =>
            (⟨r.col, listMaxInt (df.map fun x : CRRow => x.row) - r.row⟩ : CRRow)).map
              fun x : CRRow => x.row) = _
        rw [List.map_map]
        rw [show ((fun x : CRRow => x.row) ∘ fun r : CRRow =>
            (⟨r.col, listMaxInt (df.map fun x : CRRow => x.row) - r.row⟩ : CRRow)) =
            ((fun y => listMaxInt (df.map fun x : CRRow => x.row) - y) ∘
              fun x : CRRow => x.row) from rfl]
        rw [← List.map_map, listMaxInt_map_sub _ _ hrows]
      show (flipData df FlipAxis.vertical).map (fun r : CRRow =>
          (⟨r.col, listMaxInt ((flipData df FlipAxis.vertical).map fun x : CRRow => x.row) -
            r.row⟩ : CRRow)) =
        df.map fun r => (⟨r.col, r.row - listMinInt (df.map (·.row))⟩ : CRRow)
      simp only [hM]
      rw [show flipData df FlipAxis.vertical = df.map fun r : CRRow =>
          (⟨r.col, listMaxInt (df.map fun x : CRRow => x.row) - r.row⟩ : CRRow) from rfl]
      rw [List.map_map]
      apply List.map_congr_left
      intro r _
      simp only [Function.comp_apply, CRRow.mk.injEq]
      exact ⟨trivial, by omega⟩
  refine ⟨main, ?_, ?_⟩
  · intro hax h0
    subst hax
    rw [main, h0]
    simp only [sub_zero]
    exact List.map_id df
  · intro hax h0
    subst hax
    rw [main, h0]
    simp only [sub_zero]
    exact List.map_id df

/-- C6 witness: the amended theorem applied to the concrete table
`[(0,0),(3,1)]`, whose `Col` minimum is 0, so the double horizontal flip
restores it. -/
theorem flip_twice_translates_witness :
    flipData (flipData [{ col := 0, row := 0 }, { col := 3, row := 1 }]
        FlipAxis.horizontal) FlipAxis.horizontal =
      [{ col := 0, row := 0 }, { col := 3, row := 1 }] :=
  (flip_twice_translates [{ col := 0, row := 0 }, { col := 3, row := 1 }]
    FlipAxis.horizontal (by decide)).2.1 rfl (by decide)

/-- C7 counterexample: two lots under distinct products share
`original_lot_id = "L1"`; the scanner gave the first the internal id
`"L1"` and the second `"P2_L1"`.  For the second lot's component,
`get_component` with the internal id returns that component, but
`get_component` with the original id `"L1"` resolves to the FIRST lot and
returns the other product's component — a different object — so the claim
fails precisely in the duplicated-original case it singles out. -/
theorem get_component_original_id_counterexample :
    (getComponent
          { lots := [{ lot_id := "L1", product_id := "P1", original_lot_id := "L1" },
                     { lot_id := "P2_L1", product_id := "P2", original_lot_id := "L1" }],
            components :=
              [(componentKey "P1" "L1" "MT" "C",
                { component_id := "C", lot_id := "L1", station := "MT",
                  csv_path := some (csvFilePath "P1" "L1" "MT" "C") }),
               (componentKey "P2" "P2_L1" "MT" "C",
                { component_id := "C", lot_id := "P2_L1", station := "MT",
                  csv_path := some (csvFilePath "P2" "L1" "MT" "C") })] }
          "P2_L1" "MT" "C" =
        some { component_id := "C", lot_id := "P2_L1", station := "MT",
               csv_path := some (csvFilePath "P2" "L1" "MT" "C") }) ∧
    (getComponent
          { lots := [{ lot_id := "L1", product_id := "P1", original_lot_id := "L1" },
                     { lot_id := "P2_L1", product_id := "P2", original_lot_id := "L1" }],
            components :=
              [(componentKey "P1" "L1" "MT" "C",
                { component_id := "C", lot_id := "L1", station := "MT",
                  csv_path := some (csvFilePath "P1" "L1" "MT" "C") }),
               (componentKey "P2" "P2_L1" "MT" "C",
                { component_id := "C", lot_id := "P2_L1", station := "MT",
                  csv_path := some (csvFilePath "P2" "L1" "MT" "C") })] }
          "L1" "MT" "C" =
        some { component_id := "C", lot_id := "L1", station := "MT",
               csv_path := some (csvFilePath "P1" "L1" "MT" "C") }) ∧
    ({ component_id := "C", lot_id := "L1", station := "MT",
       csv_path := some (csvFilePath "P1" "L1" "MT" "C") } : ComponentInfo) ≠
      { component_id := "C", lot_id := "P2_L1", station := "MT",
        csv_path := some (csvFilePath "P2" "L1" "MT" "C") } := by
  exact ⟨by decide, by decide, by decide⟩

/-- C7 (amended): `get_component` returns the same component for the
internal and the original lot id whenever the original id resolves
unambiguously — no other lot shares that `original_lot_id` and no other
lot uses it as its internal id.  When two lots under distinct products
share an `original_lot_id`, a lookup by the shared id resolves to the
first matching lot, so the components of the other lot are only reachable
through their internal id (the counterexample). -/
theorem get_component_internal_or_original (cat : Catalog) (l : LotInfo)
    (station component_id : String)
    (hmem : l ∈ cat.lots)
    (hids : ∀ l' ∈ cat.lots, l'.lot_id = l.lot_id → l' = l)
    (horig : ∀ l' ∈ cat.lots, l'.original_lot_id = l.original_lot_id → l' = l)
    (hclash : ∀ l' ∈ cat.lots, l'.lot_id = l.original_lot_id → l' = l) :
    getComponent cat l.original_lot_id station component_id =
      getComponent cat l.lot_id station component_id := by
  have hdir : getLotDirect cat l.lot_id = some l := by
    simp only [getLotDirect]
    cases hf : cat.lots.find? fun x => x.lot_id == l.lot_id with
    | none =>
      exfalso
      have hnone := List.find?_eq_none.mp hf l hmem
      simp at hnone
    | some x =>
      have hpx := List.find?_some hf
      have hmx := List.mem_of_find?_eq_some hf
      rw [hids x hmx (by simpa using hpx)]
  have horig_res :
      (match getLotDirect cat l.original_lot_id with
        | some lo => some lo
        | none => cat.lots.find? fun x => x.original_lot_id == l.original_lot_id) =
        some l := by
    cases hf : getLotDirect cat l.original_lot_id with
    | some x =>
      simp only [getLotDirect] at hf
      have hpx := List.find?_some hf
      have hmx := List.mem_of_find?_eq_some hf
      rw [hclash x hmx (by simpa using hpx)]
    | none =>
      simp only [getLotDirect] at hf
      cases hg : cat.lots.find? fun x => x.original_lot_id == l.original_lot_id with
      | none =>
        exfalso
        have hnone := List.find?_eq_none.mp hg l hmem
        simp at hnone
      | some y =>
        have hpy := List.find?_some hg
        have hmy := List.mem_of_find?_eq_some hg
        rw [horig y hmy (by simpa using hpy)]
  simp only [getComponent, hdir]
  rw [horig_res]

/-- C7 witness: the amended theorem at a one-lot catalog whose internal id
`"P9_LX"` differs from its original id `"LX"`: both lookups agree. -/
theorem get_component_internal_or_original_witness :
    getComponent
        { lots := [{ lot_id := "P9_LX", product_id := "P9", original_lot_id := "LX" }],
          components :=
            [(componentKey "P9" "P9_LX" "MT" "C",
              { component_id := "C", lot_id := "P9_LX", station := "MT",
                csv_path := some (csvFilePath "P9" "LX" "MT" "C") })] }
        "LX" "MT" "C" =
      getComponent
        { lots := [{ lot_id := "P9_LX", product_id := "P9", original_lot_id := "LX" }],
          components :=
            [(componentKey "P9" "P9_LX" "MT" "C",
              { component_id := "C", lot_id := "P9_LX", station := "MT",
                csv_path := some (csvFilePath "P9" "LX" "MT" "C") })] }
        "P9_LX" "MT" "C" :=
  get_component_internal_or_original
    { lots := [{ lot_id := "P9_LX", product_id := "P9", original_lot_id := "LX" }],
      components :=
        [(componentKey "P9" "P9_LX" "MT" "C",
          { component_id := "C", lot_id := "P9_LX", station := "MT",
            csv_path := some (csvFilePath "P9" "LX" "MT" "C") })] }
    { lot_id := "P9_LX", product_id := "P9", original_lot_id := "LX" }
    "MT" "C" (by decide) (by decide) (by decide) (by decide)

/-- C1 counterexample: a raw-AOI-format component whose alignment check
returns `error` (here: the recipe has no reference points).  The task does
NOT abort: the header strip runs, `csv_path` / `original_csv_path` are
rewritten, and with every later step succeeding the basemap task even
completes successfully — against both halves of the claim for the `error`
status. -/
theorem basemap_error_status_not_aborted :
    let env0 : BasemapEnv :=
      { csvPathExists := true
        isAoiName := true
        lotFound := true
        excMsg := ""
        sourceProduct := "P1"
        originalLotId := "L1"
        sampleRulesFileExists := true
        stationRule := some { formulasExists := true, maskExists := true, plotExists := true }
        alignConfigFileExists := true
        alignInput := { recipePoints := [], headerRow := some 3, readOk := true,
                        hasRequiredCols := true, rows := [] }
        extractedId := some "C"
        stripOk := true
        stripErrMsg := ""
        strippedNameProcessed := true
        origNameProcessed := false
        csvFileName := "DEV_C_202401010000.csv"
        loadCsvOk := true
        plotConfigReadOk := true
        plotCfgErr := ""
        plotOk := true
        basemapOutPath := basemapFilePath "P1" "L1" "MT" "C"
        autoMoveEnabled := false
        autoMoveTarget := "i-Pixel"
        immediateFileTypes := [FileType.csv, FileType.map]
        moveFs := { csvSourceExists := false, basemapSourceExists := false,
                    lossmapSourceExists := false, fpySourceExists := false,
                    stationIdx := some 0, orgStage := PathStage.absent,
                    roiStage := PathStage.absent, orgMoveOk := true, roiMoveOk := true } }
    let comp0 : ComponentInfo :=
      { component_id := "C", lot_id := "L1", station := "MT",
        csv_path := some "P1/processed_csv/L1/MT/DEV_C_202401010000.csv" }
    (checkCsvAlignment env0.alignInput).1 = AlignStatus.error ∧
    (generateBasemap env0 comp0).1.1 = true ∧
    (generateBasemap env0 comp0).2.csv_path = some (csvFilePath "P1" "L1" "MT" "C") ∧
    (generateBasemap env0 comp0).2.csv_path ≠ comp0.csv_path ∧
    (generateBasemap env0 comp0).2.original_csv_path = comp0.csv_path ∧
    (generateBasemap env0 comp0).2.basemap_path =
      some (basemapFilePath "P1" "L1" "MT" "C") := by
  exact ⟨rfl, rfl, rfl, by decide, rfl, rfl⟩

/-- C1 (amended): during a basemap task on a raw-AOI-format CSV that
reaches the alignment check, a `fail` result aborts the task with the
reason and leaves the component untouched; but an `error` result is not
examined (only `fail` is, data_processor.py line 738): the run proceeds
exactly as if the check had succeeded, so the header strip may rewrite
`csv_path` / `original_csv_path` and the task may complete. -/
theorem basemap_alignment_handling :
    (∀ (env : BasemapEnv) (rule : SampleRule) (comp : ComponentInfo),
      env.csvPathExists = true → env.isAoiName = true → env.lotFound = true →
      env.sampleRulesFileExists = true → env.stationRule = some rule →
      rule.formulasExists = true → rule.plotExists = true →
      env.alignConfigFileExists = true →
      (checkCsvAlignment env.alignInput).1 = AlignStatus.fail →
      generateBasemap env comp =
        ((false, "CSV檔案偏移錯誤: " ++ (checkCsvAlignment env.alignInput).2), comp)) ∧
    (∀ (env : BasemapEnv) (a a' : AlignInput) (comp : ComponentInfo),
      (checkCsvAlignment a).1 ≠ AlignStatus.fail →
      (checkCsvAlignment a').1 ≠ AlignStatus.fail →
      generateBasemap { env with alignInput := a } comp =
        generateBasemap { env with alignInput := a' } comp) := by
  constructor
  · intro env rule comp h1 h2 h3 h4 h5 h6 h7 h8 hfail
    simp [generateBasemap, h1, h2, h3, h4, h5, h6, h7, h8, hfail]
  · intro env a a' comp h1 h2
    have e1 : ((checkCsvAlignment a).1 == AlignStatus.fail) = false :=
      beq_eq_false_iff_ne.mpr h1
    have e2 : ((checkCsvAlignment a').1 == AlignStatus.fail) = false :=
      beq_eq_false_iff_ne.mpr h2
    simp only [generateBasemap, basemapStep4, autoMoveHook, e1, e2,
      Bool.false_eq_true, if_false]

/-- Helper: one iteration of the `move_files` file-type loop preserves the
loop invariant. -/
theorem processFileType_inv (a : MoveArgs) (comp0 : ComponentInfo) (idx0 : Option Nat)
    (st : MoveState) (ft : FileType) (h : MoveLoopInv a comp0 idx0 st) :
    MoveLoopInv a comp0 idx0 (processFileType a st ft) := by
  obtain ⟨hidx, horg, hroi, hocsv, hprod, hcsv, hbase, hloss, hfpy⟩ := h
  cases ft with
  | csv =>
    simp only [processFileType]
    by_cases hc : st.fs.csvSourceExists = true
    · rw [if_pos hc]
      exact ⟨hidx, horg, hroi, hocsv, hprod, Or.inr rfl, hbase, hloss, hfpy⟩
    · rw [if_neg hc]
      exact ⟨hidx, horg, hroi, hocsv, hprod, hcsv, hbase, hloss, hfpy⟩
  | map =>
    simp only [processFileType]
    cases hsi : st.fs.stationIdx with
    | none => exact ⟨hidx, horg, hroi, hocsv, hprod, hcsv, hbase, hloss, hfpy⟩
    | some i =>
      have hi : idx0 = some i := by rw [← hidx, hsi]
      try dsimp only
      by_cases h1 : st.fs.basemapSourceExists = true
      · rw [if_pos h1]
        try dsimp only
        by_cases h2 : st.fs.lossmapSourceExists = true
        · rw [if_pos h2]
          try dsimp only
          by_cases h3 : st.fs.fpySourceExists = true
          · rw [if_pos h3]
            exact ⟨by first | exact hi.symm | exact hidx, horg, hroi, hocsv, hprod, hcsv,
              Or.inr rfl, Or.inr ⟨i, hi, rfl⟩, Or.inr rfl⟩
          · rw [if_neg h3]
            exact ⟨by first | exact hi.symm | exact hidx, horg, hroi, hocsv, hprod, hcsv,
              Or.inr rfl, Or.inr ⟨i, hi, rfl⟩, hfpy⟩
        · rw [if_neg h2]
          try dsimp only
          by_cases h3 : st.fs.fpySourceExists = true
          · rw [if_pos h3]
            exact ⟨by first | exact hi.symm | exact hidx, horg, hroi, hocsv, hprod, hcsv,
              Or.inr rfl, hloss, Or.inr rfl⟩
          · rw [if_neg h3]
            exact ⟨by first | exact hi.symm | exact hidx, horg, hroi, hocsv, hprod, hcsv,
              Or.inr rfl, hloss, hfpy⟩
      · rw [if_neg h1]
        try dsimp only
        by_cases h2 : st.fs.lossmapSourceExists = true
        · rw [if_pos h2]
          try dsimp only
          by_cases h3 : st.fs.fpySourceExists = true
          · rw [if_pos h3]
            exact ⟨by first | exact hi.symm | exact hidx, horg, hroi, hocsv, hprod, hcsv,
              hbase, Or.inr ⟨i, hi, rfl⟩, Or.inr rfl⟩
          · rw [if_neg h3]
            exact ⟨by first | exact hi.symm | exact hidx, horg, hroi, hocsv, hprod, hcsv,
              hbase, Or.inr ⟨i, hi, rfl⟩, hfpy⟩
        · rw [if_neg h2]
          try dsimp only
          by_cases h3 : st.fs.fpySourceExists = true
          · rw [if_pos h3]
            exact ⟨by first | exact hi.symm | exact hidx, horg, hroi, hocsv, hprod, hcsv,
              hbase, hloss, Or.inr rfl⟩
          · rw [if_neg h3]
            exact ⟨hidx, horg, hroi, hocsv, hprod, hcsv,
              hbase, hloss, hfpy⟩
  | org =>
    simp only [processFileType]
    cases st.fs.orgStage
    case complete =>
      by_cases hm : st.fs.orgMoveOk = true
      · rw [if_pos hm]
        exact ⟨hidx, horg, hroi, hocsv, hprod, hcsv, hbase, hloss, hfpy⟩
      · rw [if_neg hm]
        exact ⟨hidx, horg, hroi, hocsv, hprod, hcsv, hbase, hloss, hfpy⟩
    all_goals exact ⟨hidx, horg, hroi, hocsv, hprod, hcsv, hbase, hloss, hfpy⟩
  | roi =>
    simp only [processFileType]
    cases st.fs.roiStage
    case complete =>
      by_cases hm : st.fs.roiMoveOk = true
      · rw [if_pos hm]
        exact ⟨hidx, horg, hroi, hocsv, hprod, hcsv, hbase, hloss, hfpy⟩
      · rw [if_neg hm]
        exact ⟨hidx, horg, hroi, hocsv, hprod, hcsv, hbase, hloss, hfpy⟩
    all_goals exact ⟨hidx, horg, hroi, hocsv, hprod, hcsv, hbase, hloss, hfpy⟩

/-- Helper: the whole `move_files` file-type loop preserves the loop
invariant. -/
theorem moveLoop_inv (a : MoveArgs) (comp0 : ComponentInfo) (idx0 : Option Nat) :
    ∀ (fts : List FileType) (st : MoveState), MoveLoopInv a comp0 idx0 st →
      MoveLoopInv a comp0 idx0 (fts.foldl (processFileType a) st) := by
  intro fts
  induction fts with
  | nil => intro st h; exact h
  | cons f t ih =>
    intro st h
    exact ih _ (processFileType_inv a comp0 idx0 st f h)

/-- C2 counterexample: a successful `move_files` for `file_types = [org]`
moves the org directory, sets the component's `product_id` to the target —
but never touches `org_path`, which still points inside the SOURCE
product's subtree and is not null.  The claim's path-field postcondition
fails on a successful call. -/
theorem move_files_success_leaves_org_path_in_source :
    let a0 : MoveArgs :=
      { component_id := "C", lot_id := "L1", station := "MT",
        source_product := "P1", target_product := "P2", original_lot_id := "L1" }
    let comp0 : ComponentInfo :=
      { component_id := "C", lot_id := "L1", station := "MT",
        org_path := some (orgDirPath "P1" "L1" "MT" "C") }
    let fs0 : MoveFs :=
      { csvSourceExists := false, basemapSourceExists := false,
        lossmapSourceExists := false, fpySourceExists := false,
        stationIdx := some 0, orgStage := PathStage.complete,
        roiStage := PathStage.absent, orgMoveOk := true, roiMoveOk := true }
    (moveFiles a0 comp0 fs0 [FileType.org]).ok = true ∧
    (moveFiles a0 comp0 fs0 [FileType.org]).comp.product_id = some "P2" ∧
    (moveFiles a0 comp0 fs0 [FileType.org]).comp.org_path =
      some (orgDirPath "P1" "L1" "MT" "C") ∧
    underProduct (orgDirPath "P1" "L1" "MT" "C") "P1" = true ∧
    underProduct (orgDirPath "P1" "L1" "MT" "C") "P2" = false := by
  exact ⟨rfl, rfl, rfl, by decide, by decide⟩

/-- C2 (amended): after a successful `move_files`, the component's
`product_id` attribute equals the target product (line 2143 sets it
unconditionally), and each of `csv_path` / `basemap_path` /
`lossmap_path` / `fpy_path` is either the rendered target-product path
(when that file was moved) or its previous value (when it was not) —
which may still point inside the source subtree; `org_path` / `roi_path` /
`original_csv_path` are never updated by `move_files` at all. -/
theorem move_files_updates (a : MoveArgs) (comp : ComponentInfo) (fs : MoveFs)
    (fts : List FileType) (h : (moveFiles a comp fs fts).ok = true) :
    (moveFiles a comp fs fts).comp.product_id = some a.target_product ∧
    (moveFiles a comp fs fts).comp.org_path = comp.org_path ∧
    (moveFiles a comp fs fts).comp.roi_path = comp.roi_path ∧
    (moveFiles a comp fs fts).comp.original_csv_path = comp.original_csv_path ∧
    ((moveFiles a comp fs fts).comp.csv_path = comp.csv_path ∨
      (moveFiles a comp fs fts).comp.csv_path =
        some (csvFilePath a.target_product a.original_lot_id a.station a.component_id)) ∧
    ((moveFiles a comp fs fts).comp.basemap_path = comp.basemap_path ∨
      (moveFiles a comp fs fts).comp.basemap_path =
        some (basemapFilePath a.target_product a.original_lot_id a.station a.component_id)) ∧
    ((moveFiles a comp fs fts).comp.lossmap_path = comp.lossmap_path ∨
      ∃ i, fs.stationIdx = some i ∧
        (moveFiles a comp fs fts).comp.lossmap_path =
          some (lossmapFilePath a.target_product a.original_lot_id i a.component_id)) ∧
    ((moveFiles a comp fs fts).comp.fpy_path = comp.fpy_path ∨
      (moveFiles a comp fs fts).comp.fpy_path =
        some (fpyFilePath a.target_product a.original_lot_id a.component_id)) := by
  have hinv := moveLoop_inv a comp fs.stationIdx fts
    { comp := comp, fs := fs, moved := 0, failed := 0,
      monitorAdds := 0, retryAdds := 0 }
    ⟨rfl, rfl, rfl, rfl, rfl, Or.inl rfl, Or.inl rfl, Or.inl rfl, Or.inl rfl⟩
  obtain ⟨hidx, horg, hroi, hocsv, hprod, hcsv, hbase, hloss, hfpy⟩ := hinv
  exact ⟨rfl, horg, hroi, hocsv, hcsv, hbase, hloss, hfpy⟩

/-- C2 witness: the amended theorem at a concrete successful call that
moves the CSV from `P1` to `P2`. -/
theorem move_files_updates_witness :
    (moveFiles
        { component_id := "C", lot_id := "L1", station := "MT",
          source_product := "P1", target_product := "P2", original_lot_id := "L1" }
        { component_id := "C", lot_id := "L1", station := "MT",
          csv_path := some (csvFilePath "P1" "L1" "MT" "C") }
        { csvSourceExists := true, basemapSourceExists := false,
          lossmapSourceExists := false, fpySourceExists := false,
          stationIdx := some 0, orgStage := PathStage.absent,
          roiStage := PathStage.absent, orgMoveOk := true, roiMoveOk := true }
        [FileType.csv]).comp.product_id = some "P2" ∧
    (moveFiles
        { component_id := "C", lot_id := "L1", station := "MT",
          source_product := "P1", target_product := "P2", original_lot_id := "L1" }
        { component_id := "C", lot_id := "L1", station := "MT",
          csv_path := some (csvFilePath "P1" "L1" "MT" "C") }
        { csvSourceExists := true, basemapSourceExists := false,
          lossmapSourceExists := false, fpySourceExists := false,
          stationIdx := some 0, orgStage := PathStage.absent,
          roiStage := PathStage.absent, orgMoveOk := true, roiMoveOk := true }
        [FileType.csv]).comp.org_path =
      ({ component_id := "C", lot_id := "L1", station := "MT",
         csv_path := some (csvFilePath "P1" "L1" "MT" "C") } : ComponentInfo).org_path :=
  let a0 : MoveArgs :=
    { component_id := "C", lot_id := "L1", station := "MT",
      source_product := "P1", target_product := "P2", original_lot_id := "L1" }
  let c0 : ComponentInfo :=
    { component_id := "C", lot_id := "L1", station := "MT",
      csv_path := some (csvFilePath "P1" "L1" "MT" "C") }
  let f0 : MoveFs :=
    { csvSourceExists := true, basemapSourceExists := false,
      lossmapSourceExists := false, fpySourceExists := false,
      stationIdx := some 0, orgStage := PathStage.absent,
      roiStage := PathStage.absent, orgMoveOk := true, roiMoveOk := true }
  ⟨(move_files_updates a0 c0 f0 [FileType.csv] rfl).1,
   (move_files_updates a0 c0 f0 [FileType.csv] rfl).2.1⟩

end DBM
